import Mathlib

/-!
Verification of the TinyTorch API service core (`src/app.py`): the Executable
Resolver (`find_tito_executable`), the Command Execution Gateway
(`execute_tito_command`) and the spec's Cell-Marker Transcoder (`parseScript`).

The Python functions are shallowly embedded: the filesystem / `which` oracle is
a `World` value, the process environment and the cached resolved path form a
`PState`, and the behaviour of `subprocess.run` on the single spawn a call can
make is an oracle `runner : SpawnCall → ProcOutcome`.  `execute_tito_command`
returns, besides its Python return/raise value, the list of spawn calls it
performed and the (unchanged) process state, so that "no process is spawned"
and frame conditions are statable.
-/

namespace TitoApp

/-- Character-list strip: drop leading whitespace, model of the left half of
Python `str.strip()`. -/
def trimLeftCh (l : List Char) : List Char := l.dropWhile Char.isWhitespace

/-- Character-list strip on the right. -/
def trimRightCh (l : List Char) : List Char := (l.reverse.dropWhile Char.isWhitespace).reverse

/-- Both-sided strip on character lists. -/
def trimCh (l : List Char) : List Char := trimRightCh (trimLeftCh l)

/-- Model of Python `str.strip()`: removes leading AND trailing whitespace. -/
def stripStr (s : String) : String := ⟨trimCh s.data⟩

/-- A process environment, as Python's `os.environ` / the dicts derived from it:
a finite map from variable names to values, modelled as a lookup function. -/
def Env : Type := String → Option String

/-- Python dict assignment `e[k] = v`. -/
def envSet (e : Env) (k v : String) : Env := fun k' => if k' = k then some v else e k'

/-- The observable state of the operating system that `app.py` consults:
the result of `subprocess.run(['which', 'tito'])` (its return code and stdout),
`os.path.exists` and `os.access(·, os.X_OK)`. -/
structure World where
  whichReturncode : Int
  whichStdout : String
  pathExists : String → Bool
  executable : String → Bool

/-- Process-wide mutable state of the Python program: `os.environ` and the
module-level cache `TITO_PATH`. -/
structure PState where
  environ : Env
  titoPath : Option String

/-- The `possible_locations` list of `find_tito_executable` (src/app.py:36-42). -/
def possible_locations : List String :=
  ["/app/venv/bin/tito",
   "/app/TinyTorch/bin/tito",
   "/app/TinyTorch/tito",
   "/app/TinyTorch/cli/tito",
   "/usr/local/bin/tito"]

/-- The candidate test of the resolver's location loop (src/app.py:53):
`os.path.exists(location) and os.access(location, os.X_OK)`. -/
def goodLoc (w : World) (loc : String) : Bool := w.pathExists loc && w.executable loc

/-- The resolver `find_tito_executable` (src/app.py:34-58): first a `which tito` lookup —
on return code 0 the stripped stdout is returned immediately — otherwise the
first member of `possible_locations` that exists and is executable; `None`
when nothing is found. -/
def find_tito_executable (w : World) : Option String :=
  if w.whichReturncode = 0 then some (stripStr w.whichStdout)
  else possible_locations.find? (goodLoc w)

/-- The `tinytorch_paths` candidate list for the PYTHONPATH prepend
(src/app.py:78). -/
def tinytorch_paths : List String := ["/app/TinyTorch", "/app/tinytorch"]

/-- Environment preparation of `execute_tito_command` (src/app.py:74-91):
copy `os.environ`; prepend the first existing `tinytorch_paths` candidate to
`PYTHONPATH` (with a `:` separator when a previous value exists) and stop after
that first candidate; then set `PYTHON` when `/app/venv/bin/python` exists. -/
def prepareEnv (w : World) (env0 : Env) : Env :=
  let env1 :=
    match tinytorch_paths.find? w.pathExists with
    | some path =>
      let current := (env0 "PYTHONPATH").getD ""
      if current ≠ "" then envSet env0 "PYTHONPATH" (path ++ ":" ++ current)
      else envSet env0 "PYTHONPATH" path
    | none => env0
  if w.pathExists "/app/venv/bin/python" then envSet env1 "PYTHON" "/app/venv/bin/python"
  else env1

/-- One invocation of the spawn primitive `subprocess.run` as issued by
`execute_tito_command` (src/app.py:93-101): argument vector, `timeout=` value
in seconds, `env=` and `cwd=`. -/
structure SpawnCall where
  command : List String
  timeoutSec : Nat
  env : Env
  cwd : String

/-- What `subprocess.run(..., capture_output=True, check=True, timeout=...)`
can do: raise `FileNotFoundError`, raise `TimeoutExpired` (carrying whatever
partial output was captured), or complete with a return code, stdout and
stderr (`check=True` turns a nonzero code into `CalledProcessError`). -/
inductive ProcOutcome where
  | notFound : ProcOutcome
  | timeout (partialOut partialErr : String) : ProcOutcome
  | completed (returncode : Int) (stdout stderr : String) : ProcOutcome

/-- The value `execute_tito_command` produces for its caller: a returned stdout
string, or the message of the `RuntimeError` it raises. -/
inductive ExecResult where
  | ok (output : String) : ExecResult
  | error (message : String) : ExecResult
deriving DecidableEq

/-- The spawn call `execute_tito_command` builds once `TITO_PATH` is known
(src/app.py:71, 93-101): command `[TITO_PATH] + args`, hard-coded
`timeout=60`, the prepared environment, and cwd `/app/TinyTorch` when that
directory exists, else `/app`. -/
def prepareCall (tp : String) (args : List String) (w : World) (st : PState) : SpawnCall :=
  { command := tp :: args
    timeoutSec := 60
    env := prepareEnv w st.environ
    cwd := if w.pathExists "/app/TinyTorch" then "/app/TinyTorch" else "/app" }

/-- The gateway `execute_tito_command` (src/app.py:64-127).  Besides the Python
return/raise value it yields the list of spawn calls issued and the process
state after the call; the source never assigns to `os.environ` or `TITO_PATH`
(it mutates only the local copy `env`), so the state passes through unchanged.
Outcome handling: `TITO_PATH is None` raises before any spawn; exit code 0
returns `stdout.strip()`; `CalledProcessError` raises with the stripped stderr
in the message; `TimeoutExpired` raises a fixed message; `FileNotFoundError`
raises a fixed message. -/
def execute_tito_command (args : List String) (w : World) (st : PState)
    (runner : SpawnCall → ProcOutcome) : ExecResult × List SpawnCall × PState :=
  match st.titoPath with
  | none => (ExecResult.error "tito executable not found. Check installation.", [], st)
  | some tp =>
    let call := prepareCall tp args w st
    match runner call with
    | ProcOutcome.completed rc out err =>
      if rc = 0 then (ExecResult.ok (stripStr out), [call], st)
      else (ExecResult.error ("tito command failed. STDERR: " ++ stripStr err), [call], st)
    | ProcOutcome.timeout _ _ =>
      (ExecResult.error "tito command timed out after 60 seconds", [call], st)
    | ProcOutcome.notFound =>
      (ExecResult.error "The 'tito' command was not found. Check Dockerfile and PATH.", [call], st)

/-- The spec's failure taxonomy (spec §7). -/
inductive FailureKind where
  | executableNotFound : FailureKind
  | nonZeroExit : FailureKind
  | timeout : FailureKind
deriving DecidableEq

/-- Does `p` occur at the start of `l`? -/
def startsWithSeq : List Char → List Char → Bool
  | [], _ => true
  | _ :: _, [] => false
  | a :: p, b :: l => a == b && startsWithSeq p l

/-- Recover the failure kind from a raised `RuntimeError` message: the four
messages `execute_tito_command` can raise are pairwise distinguishable (the
`NonZeroExit` message is the only one beginning with its fixed diagnostic
text, the other three are fixed distinct strings). -/
def classifyError (msg : String) : Option FailureKind :=
  if startsWithSeq ("tito command failed. STDERR: ").data msg.data then some FailureKind.nonZeroExit
  else if msg = "tito command timed out after 60 seconds" then some FailureKind.timeout
  else if msg = "tito executable not found. Check installation." then some FailureKind.executableNotFound
  else if msg = "The 'tito' command was not found. Check Dockerfile and PATH." then some FailureKind.executableNotFound
  else none

/-- The failure kind carried by a gateway result (`none` for success or an
unclassifiable message). -/
def resultKind : ExecResult → Option FailureKind
  | ExecResult.ok _ => none
  | ExecResult.error m => classifyError m

/-! ## Cell-Marker Transcoder (spec §4.3)

The repository snapshot under version control contains no Transcoder source;
the definitions below are modelled from the spec's §4.3 algorithm and §8
examples. -/

/-- The two cell kinds of the Notebook Document model (spec §3). -/
inductive CellKind where
  | code : CellKind
  | markdown : CellKind
deriving DecidableEq

/-- A cell: a discriminated union of verbatim `Code` text and verbatim
`Markdown` text (spec §3). -/
inductive Cell where
  | code (content : String) : Cell
  | markdown (content : String) : Cell
deriving DecidableEq

/-- Build a cell of the given kind. -/
def mkCell : CellKind → String → Cell
  | CellKind.code, s => Cell.code s
  | CellKind.markdown, s => Cell.markdown s

/-- Split a character list at newline characters (Python `splitlines` on a
nonempty text); always yields at least one (possibly empty) line. -/
def splitOnNl : List Char → List (List Char)
  | [] => [[]]
  | c :: rest =>
    if c = '\n' then [] :: splitOnNl rest
    else
      match splitOnNl rest with
      | [] => [[c]]
      | l :: ls => (c :: l) :: ls

/-- Rejoin lines with newline characters; left inverse of `splitOnNl`. -/
def joinNl : List (List Char) → List Char
  | [] => []
  | [l] => l
  | l :: ls => l ++ '\n' :: joinNl ls

/-- Does `p` occur anywhere inside `l`? -/
def containsSeq (p : List Char) : List Char → Bool
  | [] => startsWithSeq p []
  | c :: rest => startsWithSeq p (c :: rest) || containsSeq p rest

/-- Modelled from the spec: the marker token of §4.3 ("a fixed two-character
token", "comment-prefixed percent-pair"), concretely the `# %%` of the §8
example input. -/
def markerToken : List Char := ("# %%").data

/-- Modelled from the spec: the optional tag marking the next cell as
`Markdown` (spec §4.3 / §8). -/
def markdownTag : List Char := ("[markdown]").data

/-- Modelled from the spec: "A line is a marker if, after trimming, it begins
with a fixed two-character token" (spec §4.3). -/
def isMarkerLine (l : List Char) : Bool := startsWithSeq markerToken (trimCh l)

/-- Modelled from the spec: the kind the marker assigns to the next cell —
`Markdown` exactly when the marker carries the tag (spec §4.3). -/
def markerKind (l : List Char) : CellKind :=
  if containsSeq markdownTag l then CellKind.markdown else CellKind.code

/-- Modelled from the spec: close the accumulating cell — append it to the
document only if it has accumulated at least one line; cells with zero
accumulated lines are dropped silently (spec §4.3). -/
def closeCell (kind : CellKind) (buf : List (List Char)) : List Cell :=
  match buf with
  | [] => []
  | _ => [mkCell kind ⟨joinNl buf⟩]

/-- Modelled from the spec: the §4.3 line scan. On a marker line, close the
current cell and open a new one of the marker's kind; non-marker lines are
appended verbatim to the open cell; at end of input the final cell is closed. -/
def parseLines : List (List Char) → CellKind → List (List Char) → List Cell
  | [], kind, buf => closeCell kind buf
  | l :: rest, kind, buf =>
    if isMarkerLine l then closeCell kind buf ++ parseLines rest (markerKind l) []
    else parseLines rest kind (buf ++ [l])

/-- Lines of a Script Source text: Python `splitlines` semantics — the empty
text has zero lines. -/
def toLines (s : String) : List (List Char) :=
  match s.data with
  | [] => []
  | _ => splitOnNl s.data

/-- Modelled from the spec: `parseScript(text) -> NotebookDocument` (spec
§4.3); the default kind before any marker is `Code`, the initial buffer is
empty. -/
def parseScript (s : String) : List Cell := parseLines (toLines s) CellKind.code []

/-! ## Concrete sample values used by witnesses and counterexamples -/

/-- A world where `which tito` fails and nothing exists on the filesystem. -/
def wNone : World :=
  { whichReturncode := 1, whichStdout := "",
    pathExists := fun _ => false, executable := fun _ => false }

/-- A world where `which tito` succeeds and every path exists and is
executable. -/
def wAll : World :=
  { whichReturncode := 0, whichStdout := " /app/venv/bin/tito\n",
    pathExists := fun _ => true, executable := fun _ => true }

/-- A world where `which tito` fails and exactly the third candidate location
exists and is executable. -/
def wThird : World :=
  { whichReturncode := 1, whichStdout := "",
    pathExists := fun s => s == "/app/TinyTorch/tito",
    executable := fun s => s == "/app/TinyTorch/tito" }

/-- A small concrete process environment with a pre-existing `PYTHONPATH`. -/
def envBase : Env :=
  fun k => if k = "PYTHONPATH" then some "/old" else if k = "PATH" then some "/usr/bin" else none

/-- Process state with a resolved tito path cached. -/
def stTito : PState := { environ := envBase, titoPath := some "/usr/local/bin/tito" }

/-- Process state where resolution failed at startup. -/
def stNone : PState := { environ := envBase, titoPath := none }

/-- A spawn oracle: the process completes at once with exit code 0. -/
def runnerOkPlain : SpawnCall → ProcOutcome := fun _ => ProcOutcome.completed 0 "ok" ""

/-- A spawn oracle: exit code 0 with leading and trailing whitespace around the
stdout text. -/
def runnerLeading : SpawnCall → ProcOutcome := fun _ => ProcOutcome.completed 0 " hello" "x"

/-- A spawn oracle: exit code 1, stderr `boom`. -/
def runnerExit1 : SpawnCall → ProcOutcome := fun _ => ProcOutcome.completed 1 "outA" "boom"

/-- A spawn oracle: exit code 2, the same stderr `boom`. -/
def runnerExit2 : SpawnCall → ProcOutcome := fun _ => ProcOutcome.completed 2 "outB" "boom"

/-- A spawn oracle: the timeout fires with some partial output captured. -/
def runnerTimeout : SpawnCall → ProcOutcome := fun _ => ProcOutcome.timeout "partial out" "partial err"

/-! ## Helper lemmas -/

/-- `List.find?` returns the first element satisfying the test: the witness
sits at an index before which every element fails the test. -/
theorem find_first_aux {α : Type} (p : α → Bool) :
    ∀ (l : List α) (a : α), l.find? p = some a →
      ∃ i, ∃ h : i < l.length, l.get ⟨i, h⟩ = a ∧ p a = true ∧
        ∀ j (hj : j < i), p (l.get ⟨j, Nat.lt_trans hj h⟩) = false := by
  intro l
  induction l with
  | nil => intro a ha; simp [List.find?] at ha
  | cons x xs ih =>
    intro a ha
    by_cases hpx : p x = true
    · rw [List.find?_cons_of_pos _ hpx] at ha
      obtain rfl : x = a := by injection ha
      exact ⟨0, Nat.succ_pos _, rfl, hpx, fun j hj => absurd hj (Nat.not_lt_zero j)⟩
    · rw [List.find?_cons_of_neg _ hpx] at ha
      obtain ⟨i, h, hget, hpa, hfirst⟩ := ih a ha
      refine ⟨i + 1, Nat.succ_lt_succ h, by simpa using hget, hpa, ?_⟩
      intro j hj
      match j, hj with
      | 0, _ => simpa using (Bool.eq_false_iff.mpr hpx)
      | j' + 1, hj => simpa using hfirst j' (Nat.lt_of_succ_lt_succ hj)

/-- `String.data` distributes over append. -/
theorem data_append_eq (a b : String) : (a ++ b).data = a.data ++ b.data := rfl

/-- A list starts with itself followed by anything. -/
theorem startsWithSeq_append (p l : List Char) : startsWithSeq p (p ++ l) = true := by
  induction p with
  | nil => rfl
  | cons a p ih => simp [startsWithSeq, ih]

/-- `splitOnNl` always yields at least one line. -/
theorem splitOnNl_ne_nil (cs : List Char) : splitOnNl cs ≠ [] := by
  cases cs with
  | nil => simp [splitOnNl]
  | cons c rest =>
    simp only [splitOnNl]
    split
    · simp
    · split <;> simp

/-- Rejoining the lines of a text reproduces the text. -/
theorem joinNl_splitOnNl (cs : List Char) : joinNl (splitOnNl cs) = cs := by
  induction cs with
  | nil => rfl
  | cons c rest ih =>
    by_cases hc : c = '\n'
    · subst hc
      rw [show splitOnNl ('\n' :: rest) = [] :: splitOnNl rest by simp [splitOnNl]]
      rcases hr : splitOnNl rest with _ | ⟨l, ls⟩
      · exact absurd hr (splitOnNl_ne_nil rest)
      · rw [hr] at ih
        simpa [joinNl] using ih
    · rcases hr : splitOnNl rest with _ | ⟨l, ls⟩
      · exact absurd hr (splitOnNl_ne_nil rest)
      · rw [show splitOnNl (c :: rest) = (c :: l) :: ls by simp [splitOnNl, hc, hr]]
        rw [hr] at ih
        cases ls with
        | nil => simpa [joinNl] using ih
        | cons l' ls' => simpa [joinNl] using ih

/-- When no line is a marker, the scan just accumulates every line into the
open cell. -/
theorem parseLines_no_marker :
    ∀ (ls : List (List Char)) (kind : CellKind) (buf : List (List Char)),
      (∀ l ∈ ls, isMarkerLine l = false) →
      parseLines ls kind buf = closeCell kind (buf ++ ls) := by
  intro ls
  induction ls with
  | nil => intro kind buf _; simp [parseLines]
  | cons l rest ih =>
    intro kind buf h
    have hl : isMarkerLine l = false := h l (List.mem_cons_self l rest)
    rw [show parseLines (l :: rest) kind buf = parseLines rest kind (buf ++ [l]) by
      simp [parseLines, hl]]
    rw [ih kind (buf ++ [l]) (fun x hx => h x (List.mem_cons_of_mem l hx))]
    simp

/-- A nonempty string has nonempty character data. -/
theorem data_ne_nil_of_ne_empty {s : String} (h : s ≠ "") : s.data ≠ [] := by
  intro hd
  exact h (by cases s with | mk d => cases hd; rfl)

/-! ## Claim theorems -/

/-- C1: every failure of the gateway carries its classification in the raised
value itself — the resolver-miss and spawn-miss paths classify as
`ExecutableNotFound`, the timeout path as `Timeout`, and the nonzero-exit path
as `NonZeroExit`; `classifyError` recovers the kind from the raised message
alone, so no two distinct kinds are collapsed into a single indistinguishable
error. -/
theorem exec_failure_kinds_distinguishable (args : List String) (w : World) (st : PState)
    (runner : SpawnCall → ProcOutcome) :
    (st.titoPath = none →
      resultKind (execute_tito_command args w st runner).1 = some FailureKind.executableNotFound)
    ∧ (∀ tp, st.titoPath = some tp → runner (prepareCall tp args w st) = ProcOutcome.notFound →
      resultKind (execute_tito_command args w st runner).1 = some FailureKind.executableNotFound)
    ∧ (∀ tp pout perr, st.titoPath = some tp →
      runner (prepareCall tp args w st) = ProcOutcome.timeout pout perr →
      resultKind (execute_tito_command args w st runner).1 = some FailureKind.timeout)
    ∧ (∀ tp rc out err, st.titoPath = some tp →
      runner (prepareCall tp args w st) = ProcOutcome.completed rc out err → rc ≠ 0 →
      resultKind (execute_tito_command args w st runner).1 = some FailureKind.nonZeroExit) := by
  refine ⟨?_, ?_, ?_, ?_⟩
  · intro h
    simp only [execute_tito_command, h]
    show classifyError "tito executable not found. Check installation."
      = some FailureKind.executableNotFound
    decide
  · intro tp hp hr
    simp only [execute_tito_command, hp, hr]
    show classifyError "The 'tito' command was not found. Check Dockerfile and PATH."
      = some FailureKind.executableNotFound
    decide
  · intro tp pout perr hp hr
    simp only [execute_tito_command, hp, hr]
    show classifyError "tito command timed out after 60 seconds" = some FailureKind.timeout
    decide
  · intro tp rc out err hp hr hrc
    simp only [execute_tito_command, hp, hr]
    rw [if_neg hrc]
    show classifyError ("tito command failed. STDERR: " ++ stripStr err)
      = some FailureKind.nonZeroExit
    simp only [classifyError, data_append_eq, startsWithSeq_append]
    simp

/-- C1 witness: concrete invocations producing each failure kind, classified
from the value alone. -/
theorem exec_failure_kinds_distinguishable_wit :
    resultKind (execute_tito_command [] wAll stTito runnerExit1).1 = some FailureKind.nonZeroExit
    ∧ resultKind (execute_tito_command [] wAll stNone runnerExit1).1
      = some FailureKind.executableNotFound
    ∧ resultKind (execute_tito_command [] wAll stTito runnerTimeout).1
      = some FailureKind.timeout :=
  ⟨(exec_failure_kinds_distinguishable [] wAll stTito runnerExit1).2.2.2
      "/usr/local/bin/tito" 1 "outA" "boom" rfl rfl (by decide),
   (exec_failure_kinds_distinguishable [] wAll stNone runnerExit1).1 rfl,
   (exec_failure_kinds_distinguishable [] wAll stTito runnerTimeout).2.2.1
      "/usr/local/bin/tito" "partial out" "partial err" rfl rfl⟩

/-- C2 counterexample: the timeout is not caller-supplied — the source
signature is `execute_tito_command(args)` with no timeout parameter, and two
invocations differing in arguments, world and outcome both spawn with the
hard-coded `timeout=60` (src/app.py:98); a caller wanting, say, a 30-second
bound cannot obtain it, refuting "the enforced bound equals the
caller-supplied value for every positive value the caller passes". -/
theorem exec_timeout_not_caller_supplied_cex :
    ((execute_tito_command ["--version"] wAll stTito runnerOkPlain).2.1).map SpawnCall.timeoutSec
      = [60]
    ∧ ((execute_tito_command ["sleep"] wNone stTito runnerTimeout).2.1).map SpawnCall.timeoutSec
      = [60]
    ∧ (60 : Nat) ≠ 30 :=
  ⟨by decide, by decide, by decide⟩

/-- C2 amended: `execute_tito_command` takes no timeout parameter; the
wall-clock bound it passes to every process it spawns is the fixed constant
60 seconds. -/
theorem exec_timeout_fixed_sixty (args : List String) (w : World) (st : PState)
    (runner : SpawnCall → ProcOutcome) (c : SpawnCall)
    (hc : c ∈ (execute_tito_command args w st runner).2.1) : c.timeoutSec = 60 := by
  rcases hp : st.titoPath with _ | tp
  · simp [execute_tito_command, hp] at hc
  · simp only [execute_tito_command, hp] at hc
    rcases ho : runner (prepareCall tp args w st) with _ | ⟨po, pe⟩ | ⟨rc, out, err⟩
    · simp only [ho, List.mem_singleton] at hc
      subst hc; rfl
    · simp only [ho, List.mem_singleton] at hc
      subst hc; rfl
    · simp only [ho] at hc
      split at hc <;> (simp only [List.mem_singleton] at hc; subst hc; rfl)

/-- C2 amended witness: the spawn call of a concrete invocation carries the
fixed 60-second timeout. -/
theorem exec_timeout_fixed_sixty_wit :
    (prepareCall "/usr/local/bin/tito" ["--version"] wAll stTito).timeoutSec = 60 :=
  exec_timeout_fixed_sixty ["--version"] wAll stTito runnerOkPlain _
    (by rw [show (execute_tito_command ["--version"] wAll stTito runnerOkPlain).2.1
            = [prepareCall "/usr/local/bin/tito" ["--version"] wAll stTito] from rfl]
        exact List.Mem.head _)

/-- C3: when the resolver finds nothing (so the cached `TITO_PATH` is `None`),
the gateway raises the not-found error immediately, performs zero spawn calls,
and the raised value classifies as `ExecutableNotFound`. -/
theorem exec_not_found_no_spawn (args : List String) (w : World) (env0 : Env)
    (runner : SpawnCall → ProcOutcome) (h : find_tito_executable w = none) :
    execute_tito_command args w ⟨env0, find_tito_executable w⟩ runner
      = (ExecResult.error "tito executable not found. Check installation.", [],
         (⟨env0, find_tito_executable w⟩ : PState))
    ∧ resultKind (execute_tito_command args w ⟨env0, find_tito_executable w⟩ runner).1
      = some FailureKind.executableNotFound := by
  rw [h]
  refine ⟨rfl, ?_⟩
  show classifyError "tito executable not found. Check installation."
    = some FailureKind.executableNotFound
  decide

/-- C3 witness: in a world where resolution fails, a concrete call raises the
not-found error with an empty spawn trace. -/
theorem exec_not_found_no_spawn_wit :
    execute_tito_command ["--help"] wNone ⟨envBase, find_tito_executable wNone⟩ runnerOkPlain
      = (ExecResult.error "tito executable not found. Check installation.", [],
         (⟨envBase, find_tito_executable wNone⟩ : PState)) :=
  (exec_not_found_no_spawn ["--help"] wNone envBase runnerOkPlain (by decide)).1

/-- C4: the resolver is first-match-wins — if the `which` lookup succeeds its
stripped stdout is returned immediately; otherwise any returned candidate is a
member of the fixed list that exists and is executable while every
earlier-listed candidate fails that test; and when `which` fails and no
candidate passes, the resolver reports `None`. -/
theorem find_tito_first_match (w : World) :
    (w.whichReturncode = 0 → find_tito_executable w = some (stripStr w.whichStdout))
    ∧ (w.whichReturncode ≠ 0 → ∀ loc, find_tito_executable w = some loc →
        ∃ i, ∃ h : i < possible_locations.length,
          possible_locations.get ⟨i, h⟩ = loc ∧ goodLoc w loc = true ∧
          ∀ j (hj : j < i), goodLoc w (possible_locations.get ⟨j, Nat.lt_trans hj h⟩) = false)
    ∧ (w.whichReturncode ≠ 0 → (∀ loc ∈ possible_locations, goodLoc w loc = false) →
        find_tito_executable w = none) := by
  refine ⟨?_, ?_, ?_⟩
  · intro h
    simp [find_tito_executable, h]
  · intro h loc hloc
    rw [find_tito_executable, if_neg h] at hloc
    exact find_first_aux (goodLoc w) possible_locations loc hloc
  · intro h hall
    rw [find_tito_executable, if_neg h]
    exact List.find?_eq_none.mpr (fun x hx => by simp [hall x hx])

/-- C4 witness: in a world where `which` fails and only the third candidate is
present and executable, the resolver returns it and every earlier candidate
fails the test. -/
theorem find_tito_first_match_wit :
    ∃ i, ∃ h : i < possible_locations.length,
      possible_locations.get ⟨i, h⟩ = "/app/TinyTorch/tito"
      ∧ goodLoc wThird "/app/TinyTorch/tito" = true
      ∧ ∀ j (hj : j < i),
          goodLoc wThird (possible_locations.get ⟨j, Nat.lt_trans hj h⟩) = false :=
  (find_tito_first_match wThird).2.1 (by decide) "/app/TinyTorch/tito" (by decide)

/-- C5: environment preparation starts from the process environment and, when
some candidate package root exists, sets `PYTHONPATH` to exactly that first
existing candidate prepended (with `:`) to the pre-existing value — once, with
the old value preserved after it; when none exists `PYTHONPATH` is untouched;
every variable other than `PYTHONPATH` and `PYTHON` is passed through
unchanged; and `/app/TinyTorch`, when it exists, is the candidate chosen even
if `/app/tinytorch` also exists. -/
theorem prepare_env_pythonpath (w : World) (env0 : Env) :
    (∀ p, tinytorch_paths.find? w.pathExists = some p →
      prepareEnv w env0 "PYTHONPATH"
        = some (if (env0 "PYTHONPATH").getD "" = "" then p
                else p ++ ":" ++ (env0 "PYTHONPATH").getD ""))
    ∧ (tinytorch_paths.find? w.pathExists = none →
      prepareEnv w env0 "PYTHONPATH" = env0 "PYTHONPATH")
    ∧ (∀ k, k ≠ "PYTHONPATH" → k ≠ "PYTHON" → prepareEnv w env0 k = env0 k)
    ∧ (w.pathExists "/app/TinyTorch" = true →
      tinytorch_paths.find? w.pathExists = some "/app/TinyTorch") := by
  have hne : ("PYTHONPATH" : String) ≠ "PYTHON" := by decide
  refine ⟨?_, ?_, ?_, ?_⟩
  · intro p hp
    simp only [prepareEnv, hp]
    split
    · by_cases hcur : (env0 "PYTHONPATH").getD "" = "" <;> simp [envSet, hne, hcur]
    · by_cases hcur : (env0 "PYTHONPATH").getD "" = "" <;> simp [envSet, hne, hcur]
  · intro hp
    simp only [prepareEnv, hp]
    split
    · simp [envSet, hne]
    · rfl
  · intro k hk1 hk2
    rcases hf : tinytorch_paths.find? w.pathExists with _ | p <;>
      simp only [prepareEnv, hf] <;> split <;>
      by_cases hcur : (env0 "PYTHONPATH").getD "" = "" <;>
      simp [envSet, hk1, hk2, hcur]
  · intro h
    rw [tinytorch_paths]
    exact List.find?_cons_of_pos _ h

/-- C5 witness: with both candidate directories existing and a pre-existing
value `/old`, the prepared `PYTHONPATH` is the first candidate prepended
once. -/
theorem prepare_env_pythonpath_wit :
    prepareEnv wAll envBase "PYTHONPATH"
      = some (if (envBase "PYTHONPATH").getD "" = "" then "/app/TinyTorch"
              else "/app/TinyTorch" ++ ":" ++ (envBase "PYTHONPATH").getD "") :=
  (prepare_env_pythonpath wAll envBase).1 "/app/TinyTorch" (by decide)

/-- C6 counterexample: the exit code is not carried by the failure value —
invocations whose processes exit with code 1 and code 2 (same stderr) raise
the very same value, so the code cannot be recovered from it; stdout is not
carried either (the two runs had different stdout). -/
theorem nonzero_exit_code_not_carried_cex :
    (execute_tito_command [] wAll stTito runnerExit1).1
      = ExecResult.error "tito command failed. STDERR: boom"
    ∧ (execute_tito_command [] wAll stTito runnerExit2).1
      = ExecResult.error "tito command failed. STDERR: boom" :=
  ⟨by decide, by decide⟩

/-- C6 amended: on a nonzero exit the gateway raises a failure whose message
carries the trimmed stderr after a fixed diagnostic text; the exit code and
stdout are only logged, not carried in the raised value. -/
theorem nonzero_exit_carries_trimmed_stderr (args : List String) (w : World) (st : PState)
    (runner : SpawnCall → ProcOutcome) (tp : String) (rc : Int) (out err : String)
    (hp : st.titoPath = some tp)
    (hr : runner (prepareCall tp args w st) = ProcOutcome.completed rc out err)
    (hrc : rc ≠ 0) :
    (execute_tito_command args w st runner).1
      = ExecResult.error ("tito command failed. STDERR: " ++ stripStr err) := by
  simp only [execute_tito_command, hp, hr]
  rw [if_neg hrc]

/-- C6 amended witness: a concrete nonzero exit with stderr `boom` raises the
message carrying the trimmed stderr. -/
theorem nonzero_exit_carries_trimmed_stderr_wit :
    (execute_tito_command [] wAll stTito runnerExit1).1
      = ExecResult.error ("tito command failed. STDERR: " ++ stripStr "boom") :=
  nonzero_exit_carries_trimmed_stderr [] wAll stTito runnerExit1
    "/usr/local/bin/tito" 1 "outA" "boom" rfl rfl (by decide)

/-- C7 counterexample: the success result does not preserve leading
whitespace — a process exiting 0 with stdout `" hello"` yields `"hello"`, not
`" hello"`, because the source applies Python `str.strip()` which removes
leading as well as trailing whitespace. -/
theorem success_leading_whitespace_stripped_cex :
    (execute_tito_command [] wAll stTito runnerLeading).1 = ExecResult.ok "hello"
    ∧ (execute_tito_command [] wAll stTito runnerLeading).1 ≠ ExecResult.ok " hello" :=
  ⟨by decide, by decide⟩

/-- C7 amended: on exit code zero the gateway succeeds with the captured
stdout stripped of BOTH leading and trailing whitespace (Python `.strip()`);
the captured stderr does not appear in the success result (the conclusion
holds for every stderr text `err`). -/
theorem success_returns_stripped_stdout (args : List String) (w : World) (st : PState)
    (runner : SpawnCall → ProcOutcome) (tp : String) (out err : String)
    (hp : st.titoPath = some tp)
    (hr : runner (prepareCall tp args w st) = ProcOutcome.completed 0 out err) :
    (execute_tito_command args w st runner).1 = ExecResult.ok (stripStr out) := by
  simp [execute_tito_command, hp, hr]

/-- C7 amended witness: a concrete zero-exit run with whitespace-padded stdout
succeeds with the stripped text. -/
theorem success_returns_stripped_stdout_wit :
    (execute_tito_command [] wAll stTito runnerLeading).1 = ExecResult.ok (stripStr " hello") :=
  success_returns_stripped_stdout [] wAll stTito runnerLeading
    "/usr/local/bin/tito" " hello" "x" rfl rfl

/-- C8: when the spawned process exceeds the timeout, the gateway raises the
fixed timeout failure; the partial stdout and stderr captured before
termination (`pout`, `perr`, universally quantified) do not appear in the
raised value. -/
theorem timeout_discards_partial_output (args : List String) (w : World) (st : PState)
    (runner : SpawnCall → ProcOutcome) (tp pout perr : String)
    (hp : st.titoPath = some tp)
    (hr : runner (prepareCall tp args w st) = ProcOutcome.timeout pout perr) :
    (execute_tito_command args w st runner).1
      = ExecResult.error "tito command timed out after 60 seconds" := by
  simp only [execute_tito_command, hp, hr]

/-- C8 witness: a concrete timed-out run with nonempty partial output raises
the fixed timeout message without that output. -/
theorem timeout_discards_partial_output_wit :
    (execute_tito_command [] wAll stTito runnerTimeout).1
      = ExecResult.error "tito command timed out after 60 seconds" :=
  timeout_discards_partial_output [] wAll stTito runnerTimeout
    "/usr/local/bin/tito" "partial out" "partial err" rfl rfl

/-- C9: the transcoder's parser is total and permissive — the empty text
parses to a document with zero cells, and every nonempty text none of whose
lines is a marker parses to exactly one `Code` cell whose content is the input
text verbatim. -/
theorem parse_script_total_permissive :
    parseScript "" = []
    ∧ ∀ s : String, s ≠ "" → (∀ l ∈ toLines s, isMarkerLine l = false) →
        parseScript s = [Cell.code s] := by
  refine ⟨rfl, ?_⟩
  intro s hs hnm
  have hd : s.data ≠ [] := data_ne_nil_of_ne_empty hs
  have htl : toLines s = splitOnNl s.data := by
    cases s with
    | mk d =>
      cases d with
      | nil => exact absurd rfl hd
      | cons c cs => rfl
  have hjoin : joinNl (splitOnNl s.data) = s.data := joinNl_splitOnNl s.data
  rw [parseScript, htl, parseLines_no_marker (splitOnNl s.data) CellKind.code []
      (htl ▸ hnm), List.nil_append]
  rcases hsp : splitOnNl s.data with _ | ⟨l, ls⟩
  · exact absurd hsp (splitOnNl_ne_nil s.data)
  · show [mkCell CellKind.code ⟨joinNl (l :: ls)⟩] = [Cell.code s]
    rw [← hsp, hjoin]
    rfl

/-- C9 witness: the marker-less two-line text of the spec's §8 example parses
to a single `Code` cell holding it verbatim. -/
theorem parse_script_total_permissive_wit :
    parseScript "x\ny" = [Cell.code "x\ny"] :=
  parse_script_total_permissive.2 "x\ny" (by decide) (by decide)

/-- C10: the gateway's invocation leaves the process-wide state unchanged
whatever the outcome — the source mutates only its local copy of the
environment and never writes `os.environ` or `TITO_PATH`, so the state
threaded through `execute_tito_command` comes back identical for every
argument list, world, cached path, environment and spawn outcome. -/
theorem execute_preserves_process_state (args : List String) (w : World) (st : PState)
    (runner : SpawnCall → ProcOutcome) :
    (execute_tito_command args w st runner).2.2 = st := by
  rcases hp : st.titoPath with _ | tp
  · simp [execute_tito_command, hp]
  · simp only [execute_tito_command, hp]
    rcases ho : runner (prepareCall tp args w st) with _ | ⟨po, pe⟩ | ⟨rc, out, err⟩
    · simp [ho]
    · simp [ho]
    · simp only [ho]
      split <;> rfl

end TitoApp

